import Mathlib

/-!
# TinyWindowsGraphics: window descriptor, window style and window objects

A shallow embedding of `include/twg/window.h` and
`include/twg/window/window_events.h`, with the properties of the window
style encoding, the window descriptor and the window objects.

The host's handle and unsigned types (`HWND`, `HDC`, `UINT`, `WPARAM`) are
natural numbers, its signed ones (`LPARAM`, `LRESULT`) integers; the null
handle is `0`. A function whose body ends without a `return` gives `none`.
Definitions marked "Modelled from the spec" stand for code that the two
headers declare but do not define.
-/

namespace twg

/-! ## `enum WindowStyle : int32u` (window.h, lines 129-151) -/

/-- The underlying type of the enumeration is `int32u`; every enumerator and
every `|` of enumerators is below `2 ^ 32`, so no reduction is needed. -/
abbrev WindowStyle := Nat

def WINDOW_STANDART : WindowStyle := 0
def WINDOW_TOOL : WindowStyle := 1
def WINDOW_CAPTION : WindowStyle := 2
def WINDOW_POPUP : WindowStyle := 3
def WINDOW_NO_BORDER : WindowStyle := 4

/-- Source comment: denotes the number of window styles. -/
def WINDOW_MAX_TYPE : WindowStyle := 5

def WINDOW_ON_TOP : WindowStyle := 0x010
def WINDOW_DISABLED : WindowStyle := 0x020
def WINDOW_MAXIMIZED : WindowStyle := 0x040
def WINDOW_MAX_BUTTON : WindowStyle := 0x080
def WINDOW_MIN_BUTTON : WindowStyle := 0x100

/-- Source comment: this style can be given only when the window is created. -/
def WINDOW_DROP_SHADOW : WindowStyle := 0x200

/-- The enumerators under the source comment "among these only one can be
chosen", in declaration order. -/
def shapes : List WindowStyle :=
  [WINDOW_STANDART, WINDOW_TOOL, WINDOW_CAPTION, WINDOW_POPUP, WINDOW_NO_BORDER]

/-- The enumerators under the source comment "the styles below can be joined
with the operator |", together with the creation-only one, in declaration
order. -/
def flags : List WindowStyle :=
  [WINDOW_ON_TOP, WINDOW_DISABLED, WINDOW_MAXIMIZED, WINDOW_MAX_BUTTON,
   WINDOW_MIN_BUTTON, WINDOW_DROP_SHADOW]

/-- The value `s | f₁ | f₂ | ...` a caller writes for a shape and flags (source
comment: the flags can be joined with the operator `|`); `|` on two `int32u`
values is the bitwise or. -/
def combine (s : WindowStyle) (F : List WindowStyle) : WindowStyle :=
  F.foldl (fun acc f => acc ||| f) s

/-- The bits of a style value below `0x10`, the lowest flag: its shape. The
headers hold no decoder; this one and `hasFlag` are the usual reading of such
an enumeration. -/
def shapeOf (v : WindowStyle) : WindowStyle := v &&& 0xF

/-- The bit test `(v & f) != 0`. -/
def hasFlag (v f : WindowStyle) : Bool := (v &&& f) != 0

/-! ## Host types and `WindowType` (window.h, lines 102-127) -/

abbrev HWND := Nat
abbrev HDC := Nat
abbrev UINT := Nat
abbrev WPARAM := Nat
abbrev LPARAM := Int
abbrev LRESULT := Int

/-- The null handle. -/
def NULL : Nat := 0

/-- Modelled from the spec: `Point_i` is declared in `twg/point.h`, which is
not among the sources; the spec calls it a 2D integer point. -/
structure Point_i where
  x : Int
  y : Int
deriving DecidableEq, Repr

/-- The data members of `class WindowType`, in declaration order. `iconNo` is
an `int32`; the constructor receives it already as an `int32`. -/
structure WindowType where
  iconNo : Int
  pos : Point_i
  size : Point_i
  minSize : Point_i
  maxSize : Point_i
  caption : String
  style : WindowStyle
deriving DecidableEq, Repr

/-- The constructor of `WindowType`: the member initialiser list
`iconNo(iconNo), pos(pos), size(size), minSize(minSize), maxSize(maxSize),
caption(caption), style(style)` and an empty body. -/
def WindowType.ctor (iconNo : Int) (pos size minSize maxSize : Point_i)
    (caption : String) (style : WindowStyle) : WindowType :=
  { iconNo := iconNo, pos := pos, size := size, minSize := minSize,
    maxSize := maxSize, caption := caption, style := style }

/-! ## `class WindowObject` (window.h, lines 23-50) -/

/-- The data members of `class WindowObject`. `ImageWin` is declared in
`twg/image.h`, which is not among the sources, and stays a type parameter. -/
structure WindowObject (ImageWin : Type) where
  canvas : ImageWin
  m_hwnd : HWND
  m_hdc : HDC

/-- The constructor `WindowObject() {}`: no member initialiser and an empty
body. `canvas` is default-constructed by `ImageWin`; `m_hwnd` and `m_hdc` are
pointers that nothing initialises, so they keep what the object's storage
held before: `rawHwnd` and `rawHdc`. -/
def WindowObject.ctor {ImageWin : Type} (canvas : ImageWin) (rawHwnd : HWND)
    (rawHdc : HDC) : WindowObject ImageWin :=
  { canvas := canvas, m_hwnd := rawHwnd, m_hdc := rawHdc }

/-- The default `virtual HWND create(void* wndProc) {}`: the body is empty, so
the object is unchanged and no `return` statement yields a handle. -/
def WindowObject.create {ImageWin : Type} (self : WindowObject ImageWin)
    (_wndProc : Nat) : WindowObject ImageWin × Option HWND :=
  (self, none)

/-- The default `virtual LRESULT wndProc(HWND, UINT, WPARAM, LPARAM) {}`: the
body is empty, so the object is unchanged and no `return` statement yields an
`LRESULT`. -/
def WindowObject.wndProc {ImageWin : Type} (self : WindowObject ImageWin)
    (_hwnd : HWND) (_msg : UINT) (_wParam : WPARAM) (_lParam : LPARAM) :
    WindowObject ImageWin × Option LRESULT :=
  (self, none)

/-! ## `class WindowBase` (window.h, lines 54-99) -/

/-- The data members of `class WindowBase : public WindowObject`; `m_type`
is the descriptor the `WindowType*` points to. -/
structure WindowBase (ImageWin : Type) where
  obj : WindowObject ImageWin
  m_minSize : Point_i
  m_maxSize : Point_i
  m_type : WindowType
  m_className : String

/-- Modelled from the spec: the body of `WindowBase::wndProcNext` is not among
the sources. The comment on its declaration says that by default it returns
`DefWindowProc(hwnd, msg, wParam, lParam)`, and the spec that it forwards the
message to the host's default message handling and returns its result. The
host function is a parameter. -/
def WindowBase.wndProcNext
    (DefWindowProc : HWND → UINT → WPARAM → LPARAM → LRESULT)
    (hwnd : HWND) (msg : UINT) (wParam : WPARAM) (lParam : LPARAM) : LRESULT :=
  DefWindowProc hwnd msg wParam lParam

/-! ## `class WindowEvents` (window_events.h, lines 12-24) -/

/-- Modelled from the spec: `EventsHandler` is declared in `twg/events.h`,
which is not among the sources. It holds the external handler the window
invokes, or none (`nullptr`); the handler gets the message identity and both
parameters and gives the dispatch result. -/
structure EventsHandler where
  handler : Option (UINT → WPARAM → LPARAM → LRESULT)

/-- Modelled from the spec: the constructor `EventsHandler(h)` keeps the
handler it is given. -/
def EventsHandler.ctor (h : Option (UINT → WPARAM → LPARAM → LRESULT)) :
    EventsHandler :=
  { handler := h }

/-- The two bases of `class WindowEvents : public WindowBase, public
EventsHandler`. -/
structure WindowEvents (ImageWin : Type) where
  base : WindowBase ImageWin
  events : EventsHandler

/-- The constructor `WindowEvents(WindowType type) : WindowBase(type),
EventsHandler(nullptr) {}`. The body of `WindowBase(type)` is not among the
sources; `base` is the object it builds. -/
def WindowEvents.ctor {ImageWin : Type} (base : WindowBase ImageWin) :
    WindowEvents ImageWin :=
  { base := base, events := EventsHandler.ctor none }

/-- Modelled from the spec: the body of `WindowEvents::wndProcNext` is not
among the sources. The spec: it forwards the message to the external handler,
passing the message identity and both parameters verbatim, and the handler's
return value becomes the dispatch result; if no handler is attached, it falls
back to host default handling. -/
def WindowEvents.wndProcNext {ImageWin : Type}
    (DefWindowProc : HWND → UINT → WPARAM → LPARAM → LRESULT)
    (self : WindowEvents ImageWin)
    (hwnd : HWND) (msg : UINT) (wParam : WPARAM) (lParam : LPARAM) : LRESULT :=
  match self.events.handler with
  | some h => h msg wParam lParam
  | none => WindowBase.wndProcNext DefWindowProc hwnd msg wParam lParam

/-! ## The window lifecycle and the style mutator

The bodies of `getHwnd`, `waitForClose`, `isClosed`, `getStyle`, `setStyle`,
`WindowBase::create` and `WindowBase::wndProc` are not among the sources; the
header only declares them. -/

/-- Modelled from the spec: the state machine shared by all window types,
`Uninitialized → Creating → Open → Closing → Closed`. -/
inductive Phase where
  | Uninitialized
  | Creating
  | Open
  | Closing
  | Closed
deriving DecidableEq, Repr

/-- Modelled from the spec: a window during its life. `base` is the object of
the header; `phase` is its place in the state machine; `hostStyle` is the
style the host holds for the window (the host stores what it is given). -/
structure Window (ImageWin : Type) where
  base : WindowBase ImageWin
  phase : Phase
  hostStyle : WindowStyle

/-- Modelled from the spec: a window right after construction, before
`open()`. -/
def Window.init {ImageWin : Type} (base : WindowBase ImageWin) : Window ImageWin :=
  { base := base, phase := Phase.Uninitialized, hostStyle := WINDOW_STANDART }

/-- Stores both handles in the `WindowObject` part. -/
def Window.setHandles {ImageWin : Type} (w : Window ImageWin) (hwnd : HWND)
    (hdc : HDC) : Window ImageWin :=
  { w with base := { w.base with obj := { w.base.obj with m_hwnd := hwnd, m_hdc := hdc } } }

/-- Modelled from the spec: `getHandle()` (`getHwnd`) returns the current
host window handle. -/
def Window.getHwnd {ImageWin : Type} (w : Window ImageWin) : HWND :=
  w.base.obj.m_hwnd

/-- Modelled from the spec: `isClosed()` is a snapshot of the closed state. -/
def Window.isClosed {ImageWin : Type} (w : Window ImageWin) : Bool :=
  decide (w.phase = Phase.Closed)

/-- Modelled from the spec: `waitForClose()` blocks until the close sequence
has fully completed and returns at once on a closed window. `some ()` is a
call that returns in this state, `none` a caller that is still blocked. -/
def Window.waitForClose {ImageWin : Type} (w : Window ImageWin) : Option Unit :=
  if w.phase = Phase.Closed then some () else none

/-- Modelled from the spec: the two behaviours the spec allows for
`WINDOW_DROP_SHADOW` in a post-creation style mutator: the call is rejected,
or the flag is ignored. -/
inductive DropShadowPolicy where
  | reject
  | ignore
deriving DecidableEq, Repr

/-- Modelled from the spec: `setStyle` fails on a window that is not open;
under `reject` it fails on a style with `WINDOW_DROP_SHADOW`; otherwise the
shape and the flags other than `WINDOW_DROP_SHADOW` are those of `style` and
the `WINDOW_DROP_SHADOW` bit stays as the window has it. `none` is a failed
call, which has no effect. -/
def Window.setStyle {ImageWin : Type} (policy : DropShadowPolicy)
    (w : Window ImageWin) (style : WindowStyle) : Option (Window ImageWin) :=
  if w.phase ≠ Phase.Open then none
  else if policy = DropShadowPolicy.reject ∧ style &&& WINDOW_DROP_SHADOW ≠ 0 then none
  else some { w with hostStyle :=
    (style ^^^ (style &&& WINDOW_DROP_SHADOW)) ||| (w.hostStyle &&& WINDOW_DROP_SHADOW) }

/-- Modelled from the spec: what can happen to a window: `open()` (the
header's `onStart`), the host's creation callback with the new handles, a
creation failure, a close request, the end of teardown, any other message,
and the style mutator. -/
inductive Event where
  | onStart
  | created (hwnd : HWND) (hdc : HDC)
  | creationFailed
  | closeRequest
  | teardownDone
  | message (msg : UINT) (wParam : WPARAM) (lParam : LPARAM)
  | setStyle (policy : DropShadowPolicy) (style : WindowStyle)

/-- Modelled from the spec: the transitions of the state machine.
`Uninitialized → Creating` on `open()`; `Creating → Open` on a successful host
creation callback, which sets the handles and applies the descriptor's style;
`Creating → Closed` on creation failure, with no partial handle;
`Open → Closing` on a close request; `Closing → Closed` once teardown has
cleared the handles. An event that does not apply in a state changes
nothing. -/
def Window.step {ImageWin : Type} (w : Window ImageWin) : Event → Window ImageWin
  | Event.onStart =>
      if w.phase = Phase.Uninitialized then { w with phase := Phase.Creating } else w
  | Event.created hwnd hdc =>
      if w.phase = Phase.Creating then
        if hwnd = NULL then { w.setHandles NULL NULL with phase := Phase.Closed }
        else { w.setHandles hwnd hdc with
                 phase := Phase.Open, hostStyle := w.base.m_type.style }
      else w
  | Event.creationFailed =>
      if w.phase = Phase.Creating then { w.setHandles NULL NULL with phase := Phase.Closed }
      else w
  | Event.closeRequest =>
      if w.phase = Phase.Open then { w with phase := Phase.Closing } else w
  | Event.teardownDone =>
      if w.phase = Phase.Closing then { w.setHandles NULL NULL with phase := Phase.Closed }
      else w
  | Event.message _ _ _ => w
  | Event.setStyle policy style => (w.setStyle policy style).getD w

/-- The window after a sequence of events, in order. -/
def Window.run {ImageWin : Type} (w : Window ImageWin) (es : List Event) :
    Window ImageWin :=
  es.foldl Window.step w

/-- The invariant of the lifecycle: the handles of a closed window are null. -/
def Window.ClosedHandlesNull {ImageWin : Type} (w : Window ImageWin) : Prop :=
  w.phase = Phase.Closed → w.base.obj.m_hwnd = NULL ∧ w.base.obj.m_hdc = NULL

/-- A descriptor for the examples: a Popup window, always on top, with a
drop shadow. -/
def exampleType : WindowType :=
  WindowType.ctor 0 ⟨10, 20⟩ ⟨300, 200⟩ ⟨100, 100⟩ ⟨800, 600⟩ "example"
    (combine WINDOW_POPUP [WINDOW_ON_TOP, WINDOW_DROP_SHADOW])

/-- A window object for the examples, built in storage that held
`0xCCCCCCCC`. -/
def exampleBase : WindowBase Unit :=
  { obj := WindowObject.ctor () 0xCCCCCCCC 0xCCCCCCCC,
    m_minSize := ⟨100, 100⟩, m_maxSize := ⟨800, 600⟩,
    m_type := exampleType, m_className := "example" }

theorem or_eq_zero_iff (a b : Nat) : a ||| b = 0 ↔ a = 0 ∧ b = 0 := by
  constructor
  · intro h
    constructor
    · apply Nat.eq_of_testBit_eq
      intro i
      have := congrArg (fun n => Nat.testBit n i) h
      simp only [Nat.testBit_or, Nat.zero_testBit, Bool.or_eq_false_iff] at this
      simpa using this.1
    · apply Nat.eq_of_testBit_eq
      intro i
      have := congrArg (fun n => Nat.testBit n i) h
      simp only [Nat.testBit_or, Nat.zero_testBit, Bool.or_eq_false_iff] at this
      simpa using this.2
  · rintro ⟨rfl, rfl⟩
    rfl

theorem combine_and_of_disjoint (m : Nat) (F : List WindowStyle) :
    ∀ s : WindowStyle, (∀ f ∈ F, f &&& m = 0) → combine s F &&& m = s &&& m := by
  induction F with
  | nil => intro s _; rfl
  | cons g G ih =>
    intro s h
    have hg : g &&& m = 0 := h g (List.mem_cons_self g G)
    have hG : ∀ f ∈ G, f &&& m = 0 := fun f hf => h f (List.mem_cons_of_mem g hf)
    show combine (s ||| g) G &&& m = s &&& m
    rw [ih (s ||| g) hG, Nat.and_distrib_right, hg, Nat.or_zero]

theorem combine_and_eq_zero_iff (m : Nat) (F : List WindowStyle) :
    ∀ s : WindowStyle, combine s F &&& m = 0 ↔ s &&& m = 0 ∧ ∀ f ∈ F, f &&& m = 0 := by
  induction F with
  | nil => intro s; simp [combine]
  | cons g G ih =>
    intro s
    show combine (s ||| g) G &&& m = 0 ↔ _
    rw [ih (s ||| g), Nat.and_distrib_right, or_eq_zero_iff]
    simp only [List.mem_cons, forall_eq_or_imp]
    tauto

theorem shape_and_low (s : WindowStyle) (hs : s ∈ shapes) : s &&& 0xF = s := by
  simp only [shapes, List.mem_cons, List.mem_singleton, List.not_mem_nil, or_false] at hs
  rcases hs with rfl | rfl | rfl | rfl | rfl <;> decide

theorem flag_and_low (f : WindowStyle) (hf : f ∈ flags) : f &&& 0xF = 0 := by
  simp only [flags, List.mem_cons, List.mem_singleton, List.not_mem_nil, or_false] at hf
  rcases hf with rfl | rfl | rfl | rfl | rfl | rfl <;> decide

theorem shape_and_flag (s f : WindowStyle) (hs : s ∈ shapes) (hf : f ∈ flags) :
    s &&& f = 0 := by
  simp only [shapes, List.mem_cons, List.mem_singleton, List.not_mem_nil, or_false] at hs
  simp only [flags, List.mem_cons, List.mem_singleton, List.not_mem_nil, or_false] at hf
  rcases hs with rfl | rfl | rfl | rfl | rfl <;>
    rcases hf with rfl | rfl | rfl | rfl | rfl | rfl <;> decide

theorem flag_and_flag (g f : WindowStyle) (hg : g ∈ flags) (hf : f ∈ flags) :
    g &&& f = 0 ↔ g ≠ f := by
  simp only [flags, List.mem_cons, List.mem_singleton, List.not_mem_nil, or_false] at hg
  simp only [flags, List.mem_cons, List.mem_singleton, List.not_mem_nil, or_false] at hf
  rcases hg with rfl | rfl | rfl | rfl | rfl | rfl <;>
    rcases hf with rfl | rfl | rfl | rfl | rfl | rfl <;> decide

theorem shapeOf_combine (s : WindowStyle) (F : List WindowStyle)
    (hs : s ∈ shapes) (hF : ∀ f ∈ F, f ∈ flags) : shapeOf (combine s F) = s := by
  unfold shapeOf
  rw [combine_and_of_disjoint 0xF F s (fun f hf => flag_and_low f (hF f hf))]
  exact shape_and_low s hs

theorem hasFlag_combine (s : WindowStyle) (F : List WindowStyle)
    (hs : s ∈ shapes) (hF : ∀ f ∈ F, f ∈ flags) (f : WindowStyle) (hf : f ∈ flags) :
    combine s F &&& f ≠ 0 ↔ f ∈ F := by
  rw [Ne, combine_and_eq_zero_iff]
  constructor
  · intro h
    by_contra hnot
    apply h
    refine ⟨shape_and_flag s f hs hf, fun g hg => ?_⟩
    rw [flag_and_flag g f (hF g hg) hf]
    rintro rfl
    exact hnot hg
  · intro hmem h
    have := h.2 f hmem
    rw [flag_and_flag f f hf hf] at this
    exact this rfl

end twg

namespace twg

/-! ## The style encoding -/

/-- C1: a shape `s` and a collection `F` of flags, joined with `|` into one
`WindowStyle` value, decode back to exactly `(s, F)`: the bits below `0x10`
are `s`, and a flag tests non-zero exactly when it is in `F`; so two pairs
with the same value have the same shape and the same flags. Popup with
AlwaysOnTop and MinButton is `0x113` and decodes to Popup with exactly those
two flags. -/
theorem style_roundtrip (s : WindowStyle) (F : List WindowStyle)
    (hs : s ∈ shapes) (hF : ∀ f ∈ F, f ∈ flags) :
    shapeOf (combine s F) = s ∧
    (∀ f ∈ flags, (hasFlag (combine s F) f = true ↔ f ∈ F)) ∧
    (∀ (s' : WindowStyle) (F' : List WindowStyle), s' ∈ shapes →
      (∀ f ∈ F', f ∈ flags) → combine s' F' = combine s F →
      s' = s ∧ ∀ f ∈ flags, (f ∈ F' ↔ f ∈ F)) ∧
    combine WINDOW_POPUP [WINDOW_ON_TOP, WINDOW_MIN_BUTTON] = 0x113 ∧
    shapeOf 0x113 = WINDOW_POPUP ∧
    (∀ f ∈ flags, (hasFlag 0x113 f = true ↔ f = WINDOW_ON_TOP ∨ f = WINDOW_MIN_BUTTON)) := by
  have hflag : ∀ (t : WindowStyle) (G : List WindowStyle), t ∈ shapes →
      (∀ f ∈ G, f ∈ flags) → ∀ f ∈ flags, (hasFlag (combine t G) f = true ↔ f ∈ G) := by
    intro t G ht hG f hf
    unfold hasFlag
    rw [bne_iff_ne]
    exact hasFlag_combine t G ht hG f hf
  refine ⟨shapeOf_combine s F hs hF, hflag s F hs hF, ?_, by decide, by decide, by decide⟩
  intro s' F' hs' hF' heq
  refine ⟨?_, fun f hf => ?_⟩
  · rw [← shapeOf_combine s' F' hs' hF', heq, shapeOf_combine s F hs hF]
  · rw [← hflag s' F' hs' hF' f hf, heq, hflag s F hs hF f hf]

/-- Witness for C1 at Popup with AlwaysOnTop and MinButton. -/
theorem style_roundtrip_witness :
    WINDOW_POPUP ∈ shapes ∧
    shapeOf (combine WINDOW_POPUP [WINDOW_ON_TOP, WINDOW_MIN_BUTTON]) = WINDOW_POPUP ∧
    (∀ f ∈ flags, (hasFlag (combine WINDOW_POPUP [WINDOW_ON_TOP, WINDOW_MIN_BUTTON]) f = true ↔
      f ∈ [WINDOW_ON_TOP, WINDOW_MIN_BUTTON])) :=
  ⟨by decide,
   (style_roundtrip WINDOW_POPUP [WINDOW_ON_TOP, WINDOW_MIN_BUTTON]
      (by decide) (by decide)).1,
   (style_roundtrip WINDOW_POPUP [WINDOW_ON_TOP, WINDOW_MIN_BUTTON]
      (by decide) (by decide)).2.1⟩

/-- C2: the five shape constants are pairwise distinct, they are exactly the
integers below `WINDOW_MAX_TYPE`, and `WINDOW_MAX_TYPE` is their number, 5; so
every `k < WINDOW_MAX_TYPE` is exactly one shape constant and no shape
constant reaches `WINDOW_MAX_TYPE`. -/
theorem shapes_exclusive_complete :
    shapes.Nodup ∧
    (∀ k : WindowStyle, k ∈ shapes ↔ k < WINDOW_MAX_TYPE) ∧
    WINDOW_MAX_TYPE = shapes.length ∧
    WINDOW_MAX_TYPE = 5 ∧
    shapes = List.range WINDOW_MAX_TYPE ∧
    (∀ k : WindowStyle, k < WINDOW_MAX_TYPE → shapes.count k = 1) ∧
    (∀ s ∈ shapes, ¬ WINDOW_MAX_TYPE ≤ s) := by
  have hrange : shapes = List.range WINDOW_MAX_TYPE := by decide
  have hmem : ∀ k : WindowStyle, k ∈ shapes ↔ k < WINDOW_MAX_TYPE := by
    intro k
    rw [hrange, List.mem_range]
  have hnodup : shapes.Nodup := by
    rw [hrange]
    exact List.nodup_range WINDOW_MAX_TYPE
  refine ⟨hnodup, hmem, by decide, rfl, hrange, ?_, ?_⟩
  · intro k hk
    exact List.count_eq_one_of_mem hnodup ((hmem k).2 hk)
  · intro s hs
    exact Nat.not_le.2 ((hmem s).1 hs)

/-- C9: `WINDOW_STANDART` is `0`: for every value `v`, `v | WINDOW_STANDART`
is `v` and `v & WINDOW_STANDART` is `0`, so the bit test never detects the
Standard shape; a value built from flags only (no shape in the `|`) has the
Standard shape in its bits below `0x10`, and a value built from a shape has
the Standard shape exactly when those bits are `0`. -/
theorem standart_is_identity (v : WindowStyle) :
    WINDOW_STANDART = 0 ∧
    v ||| WINDOW_STANDART = v ∧
    WINDOW_STANDART ||| v = v ∧
    v &&& WINDOW_STANDART = 0 ∧
    hasFlag v WINDOW_STANDART = false ∧
    (∀ F : List WindowStyle, (∀ f ∈ F, f ∈ flags) → ∀ f₀ ∈ flags,
      combine f₀ F = combine WINDOW_STANDART (f₀ :: F) ∧
      shapeOf (combine f₀ F) = WINDOW_STANDART) ∧
    (∀ s ∈ shapes, ∀ F : List WindowStyle, (∀ f ∈ F, f ∈ flags) →
      (shapeOf (combine s F) = 0 ↔ s = WINDOW_STANDART)) := by
  refine ⟨rfl, Nat.or_zero v, Nat.zero_or v, Nat.and_zero v, ?_, ?_, ?_⟩
  · unfold hasFlag
    rw [show v &&& WINDOW_STANDART = 0 from Nat.and_zero v]
    rfl
  · intro F hF f₀ hf₀
    have hcomb : combine f₀ F = combine WINDOW_STANDART (f₀ :: F) := by
      show combine f₀ F = combine (WINDOW_STANDART ||| f₀) F
      rw [show WINDOW_STANDART ||| f₀ = f₀ from Nat.zero_or f₀]
    refine ⟨hcomb, ?_⟩
    rw [hcomb]
    apply shapeOf_combine WINDOW_STANDART (f₀ :: F) (by decide)
    intro f hf
    rcases List.mem_cons.1 hf with rfl | h
    · exact hf₀
    · exact hF f h
  · intro s hs F hF
    rw [shapeOf_combine s F hs hF]
    rfl

/-- C10: shapes are not independent bits: `WINDOW_TOOL | WINDOW_CAPTION` is
the third shape `WINDOW_POPUP`, and `WINDOW_TOOL | WINDOW_NO_BORDER` is `5`,
which is `WINDOW_MAX_TYPE` and no shape; but two distinct flags have no
common bit, and a shape and a flag have no common bit. -/
theorem shapes_not_independent_bits :
    WINDOW_TOOL ≠ WINDOW_CAPTION ∧
    WINDOW_TOOL ||| WINDOW_CAPTION = WINDOW_POPUP ∧
    WINDOW_POPUP ≠ WINDOW_TOOL ∧ WINDOW_POPUP ≠ WINDOW_CAPTION ∧
    WINDOW_POPUP ∈ shapes ∧
    WINDOW_TOOL ≠ WINDOW_NO_BORDER ∧
    WINDOW_TOOL ||| WINDOW_NO_BORDER = 5 ∧
    WINDOW_TOOL ||| WINDOW_NO_BORDER = WINDOW_MAX_TYPE ∧
    WINDOW_TOOL ||| WINDOW_NO_BORDER ∉ shapes ∧
    (∀ f ∈ flags, ∀ g ∈ flags, f ≠ g → f &&& g = 0) ∧
    (∀ s ∈ shapes, ∀ f ∈ flags, s &&& f = 0) := by
  refine ⟨by decide, by decide, by decide, by decide, by decide, by decide, by decide,
    by decide, by decide, ?_, ?_⟩
  · intro f hf g hg hne
    exact (flag_and_flag f g hf hg).2 hne
  · intro s hs f hf
    exact shape_and_flag s f hs hf

/-! ## The window descriptor -/

/-- C3: the object built by the `WindowType` constructor holds each argument
unchanged in the field of the same name, for all arguments, also when
`minSize` exceeds `maxSize`. -/
theorem windowType_ctor_stores_arguments (iconNo : Int)
    (pos size minSize maxSize : Point_i) (caption : String) (style : WindowStyle) :
    (WindowType.ctor iconNo pos size minSize maxSize caption style).iconNo = iconNo ∧
    (WindowType.ctor iconNo pos size minSize maxSize caption style).pos = pos ∧
    (WindowType.ctor iconNo pos size minSize maxSize caption style).size = size ∧
    (WindowType.ctor iconNo pos size minSize maxSize caption style).minSize = minSize ∧
    (WindowType.ctor iconNo pos size minSize maxSize caption style).maxSize = maxSize ∧
    (WindowType.ctor iconNo pos size minSize maxSize caption style).caption = caption ∧
    (WindowType.ctor iconNo pos size minSize maxSize caption style).style = style ∧
    WindowType.ctor 7 ⟨1, 2⟩ ⟨3, 4⟩ ⟨9, 9⟩ ⟨5, 5⟩ "w" WINDOW_POPUP =
      WindowType.mk 7 ⟨1, 2⟩ ⟨3, 4⟩ ⟨9, 9⟩ ⟨5, 5⟩ "w" WINDOW_POPUP :=
  ⟨rfl, rfl, rfl, rfl, rfl, rfl, rfl, rfl⟩

/-! ## The window object -/

/-- C4: the default `WindowObject::wndProc` leaves the object unchanged for
every message, and its empty body yields no `LRESULT` at all: at the object
with null handles and the message `(0, 0, 0, 0)`, and at every other object
and message, there is no value that it returns. -/
theorem wndProc_default_yields_no_value :
    WindowObject.wndProc (WindowObject.ctor () NULL NULL) 0 0 0 0 =
      (WindowObject.ctor () NULL NULL, none) ∧
    (∀ (ImageWin : Type) (self : WindowObject ImageWin) (hwnd : HWND) (msg : UINT)
      (wParam : WPARAM) (lParam : LPARAM),
      (WindowObject.wndProc self hwnd msg wParam lParam).1 = self ∧
      ¬ ∃ r : LRESULT, (WindowObject.wndProc self hwnd msg wParam lParam).2 = some r) := by
  refine ⟨rfl, ?_⟩
  intro ImageWin self hwnd msg wParam lParam
  refine ⟨rfl, ?_⟩
  rintro ⟨r, hr⟩
  cases hr

/-- C5: the constructor of `WindowObject` initialises neither handle: built
in storage that held `0xCCCCCCCC`, the object has `m_hwnd` and `m_hdc` equal
to `0xCCCCCCCC`, not the null handle, and the default `create` leaves them
so; in general both handles are whatever the storage held. -/
theorem ctor_leaves_handles_uninitialised :
    (WindowObject.ctor () 0xCCCCCCCC 0xCCCCCCCC).m_hwnd = 0xCCCCCCCC ∧
    (WindowObject.ctor () 0xCCCCCCCC 0xCCCCCCCC).m_hwnd ≠ NULL ∧
    (WindowObject.ctor () 0xCCCCCCCC 0xCCCCCCCC).m_hdc ≠ NULL ∧
    ((WindowObject.ctor () 0xCCCCCCCC 0xCCCCCCCC).create 0).1.m_hwnd ≠ NULL ∧
    (∀ (ImageWin : Type) (canvas : ImageWin) (rawHwnd : HWND) (rawHdc : HDC),
      (WindowObject.ctor canvas rawHwnd rawHdc).m_hwnd = rawHwnd ∧
      (WindowObject.ctor canvas rawHwnd rawHdc).m_hdc = rawHdc ∧
      ((WindowObject.ctor canvas rawHwnd rawHdc).create 0).1 =
        WindowObject.ctor canvas rawHwnd rawHdc) := by
  refine ⟨rfl, by decide, by decide, by decide, ?_⟩
  intro ImageWin canvas rawHwnd rawHdc
  exact ⟨rfl, rfl, rfl⟩

/-! ## The event router -/

/-- C6: a `WindowEvents` object is constructed with no handler attached; with
no handler attached `WindowEvents::wndProcNext` gives what
`WindowBase::wndProcNext` gives, which is `DefWindowProc(hwnd, msg, wParam,
lParam)`; with a handler attached the result is the handler's value at
`msg`, `wParam`, `lParam`. -/
theorem windowEvents_dispatch {ImageWin : Type}
    (DefWindowProc : HWND → UINT → WPARAM → LPARAM → LRESULT)
    (base : WindowBase ImageWin)
    (hwnd : HWND) (msg : UINT) (wParam : WPARAM) (lParam : LPARAM) :
    (WindowEvents.ctor base).events.handler = none ∧
    (WindowEvents.ctor base).base = base ∧
    WindowEvents.wndProcNext DefWindowProc (WindowEvents.ctor base) hwnd msg wParam lParam =
      WindowBase.wndProcNext DefWindowProc hwnd msg wParam lParam ∧
    WindowBase.wndProcNext DefWindowProc hwnd msg wParam lParam =
      DefWindowProc hwnd msg wParam lParam ∧
    (∀ e : WindowEvents ImageWin, e.events.handler = none →
      WindowEvents.wndProcNext DefWindowProc e hwnd msg wParam lParam =
        WindowBase.wndProcNext DefWindowProc hwnd msg wParam lParam) ∧
    (∀ (e : WindowEvents ImageWin) (h : UINT → WPARAM → LPARAM → LRESULT),
      e.events.handler = some h →
      WindowEvents.wndProcNext DefWindowProc e hwnd msg wParam lParam =
        h msg wParam lParam) := by
  refine ⟨rfl, rfl, rfl, rfl, ?_, ?_⟩
  · intro e he
    unfold WindowEvents.wndProcNext
    rw [he]
  · intro e h he
    unfold WindowEvents.wndProcNext
    rw [he]

/-! ## The style mutator -/

theorem drop_shadow_eq : WINDOW_DROP_SHADOW = 2 ^ 9 := by decide

theorem setStyle_eq_some {ImageWin : Type} (policy : DropShadowPolicy)
    (w w' : Window ImageWin) (style : WindowStyle)
    (h : w.setStyle policy style = some w') :
    w.phase = Phase.Open ∧
    w' = { w with hostStyle :=
      (style ^^^ (style &&& 2 ^ 9)) ||| (w.hostStyle &&& 2 ^ 9) } := by
  unfold Window.setStyle at h
  rw [drop_shadow_eq] at h
  split at h
  · cases h
  · split at h
    · cases h
    · rename_i hph _
      refine ⟨not_not.1 hph, ?_⟩
      cases h
      rfl

theorem setHandles_phase {ImageWin : Type} (w : Window ImageWin) (hwnd : HWND) (hdc : HDC) :
    (w.setHandles hwnd hdc).phase = w.phase := rfl

theorem step_of_closed {ImageWin : Type} (w : Window ImageWin) (e : Event)
    (h : w.phase = Phase.Closed) : w.step e = w := by
  cases e <;> simp [Window.step, Window.setStyle, h]

theorem run_of_closed {ImageWin : Type} (es : List Event) :
    ∀ w : Window ImageWin, w.phase = Phase.Closed → w.run es = w := by
  induction es with
  | nil => intro w _; rfl
  | cons e es ih =>
    intro w h
    show (w.step e).run es = w
    rw [step_of_closed w e h]
    exact ih w h

theorem step_closedHandlesNull {ImageWin : Type} (w : Window ImageWin) (e : Event)
    (h : w.ClosedHandlesNull) : (w.step e).ClosedHandlesNull := by
  by_cases hc : w.phase = Phase.Closed
  · rw [step_of_closed w e hc]
    exact h
  · intro hstep
    cases e with
    | onStart =>
      simp only [Window.step] at hstep ⊢
      split at hstep
      · cases hstep
      · exact absurd hstep hc
    | created hwnd hdc =>
      simp only [Window.step] at hstep ⊢
      split at hstep
      · split at hstep
        · rename_i h1 h2
          simp only [if_pos h1, if_pos h2]
          exact ⟨rfl, rfl⟩
        · cases hstep
      · exact absurd hstep hc
    | creationFailed =>
      simp only [Window.step] at hstep ⊢
      split at hstep
      · rename_i h1
        simp only [if_pos h1]
        exact ⟨rfl, rfl⟩
      · exact absurd hstep hc
    | closeRequest =>
      simp only [Window.step] at hstep ⊢
      split at hstep
      · cases hstep
      · exact absurd hstep hc
    | teardownDone =>
      simp only [Window.step] at hstep ⊢
      split at hstep
      · rename_i h1
        simp only [if_pos h1]
        exact ⟨rfl, rfl⟩
      · exact absurd hstep hc
    | message msg wParam lParam => exact absurd hstep hc
    | setStyle policy style =>
      simp only [Window.step] at hstep
      cases hres : w.setStyle policy style with
      | none =>
        rw [hres] at hstep
        exact absurd hstep hc
      | some w' =>
        rw [hres] at hstep
        obtain ⟨_, rfl⟩ := setStyle_eq_some policy w w' style hres
        exact absurd hstep hc

theorem run_closedHandlesNull {ImageWin : Type} (es : List Event) :
    ∀ w : Window ImageWin, w.ClosedHandlesNull → (w.run es).ClosedHandlesNull := by
  induction es with
  | nil => intro w h; exact h
  | cons e es ih =>
    intro w h
    exact ih (w.step e) (step_closedHandlesNull w e h)

theorem init_closedHandlesNull {ImageWin : Type} (base : WindowBase ImageWin) :
    (Window.init base).ClosedHandlesNull := by
  intro h
  cases h

/-- C8: take any window object, any events before a call of `waitForClose`
that returns, and any events after it. In the state where the call returns
and in every later state the window is closed: `isClosed` is true, `getHwnd`
is the null handle, so is the drawing-context handle, and the later events
change nothing at all. -/
theorem closed_is_terminal_after_waitForClose {ImageWin : Type}
    (base : WindowBase ImageWin) (before after : List Event)
    (hret : ((Window.init base).run before).waitForClose = some ()) :
    (((Window.init base).run before).run after).isClosed = true ∧
    (((Window.init base).run before).run after).getHwnd = NULL ∧
    (((Window.init base).run before).run after).base.obj.m_hdc = NULL ∧
    (((Window.init base).run before).run after).phase = Phase.Closed ∧
    ((Window.init base).run before).run after = (Window.init base).run before := by
  have hclosed : ((Window.init base).run before).phase = Phase.Closed := by
    unfold Window.waitForClose at hret
    by_contra hne
    rw [if_neg hne] at hret
    cases hret
  have hnull := run_closedHandlesNull before (Window.init base)
    (init_closedHandlesNull base) hclosed
  rw [run_of_closed after _ hclosed]
  refine ⟨?_, hnull.1, hnull.2, hclosed, rfl⟩
  unfold Window.isClosed
  exact decide_eq_true hclosed

/-- Witness for C8: the example window is created, closed on request and torn
down; `waitForClose` returns, and a later message, style change, `open()` and
creation callback find it closed with a null handle. -/
theorem closed_is_terminal_after_waitForClose_witness :
    ((Window.init exampleBase).run
      [Event.onStart, Event.created 7 9, Event.closeRequest, Event.teardownDone]).waitForClose
      = some () ∧
    (((Window.init exampleBase).run
      [Event.onStart, Event.created 7 9, Event.closeRequest, Event.teardownDone]).run
      [Event.message 5 0 0, Event.setStyle DropShadowPolicy.ignore WINDOW_TOOL,
       Event.onStart, Event.created 11 13]).isClosed = true ∧
    (((Window.init exampleBase).run
      [Event.onStart, Event.created 7 9, Event.closeRequest, Event.teardownDone]).run
      [Event.message 5 0 0, Event.setStyle DropShadowPolicy.ignore WINDOW_TOOL,
       Event.onStart, Event.created 11 13]).getHwnd = NULL :=
  ⟨rfl,
   (closed_is_terminal_after_waitForClose exampleBase
     [Event.onStart, Event.created 7 9, Event.closeRequest, Event.teardownDone]
     [Event.message 5 0 0, Event.setStyle DropShadowPolicy.ignore WINDOW_TOOL,
      Event.onStart, Event.created 11 13] rfl).1,
   (closed_is_terminal_after_waitForClose exampleBase
     [Event.onStart, Event.created 7 9, Event.closeRequest, Event.teardownDone]
     [Event.message 5 0 0, Event.setStyle DropShadowPolicy.ignore WINDOW_TOOL,
      Event.onStart, Event.created 11 13] rfl).2.1⟩

end twg
